import Mathlib

/-!
Shallow embedding of `src/face-service/server.py` (the `/verify` endpoint of
the face verification service) and proofs about its request handler.

Python strings are modelled as `List Char` (`PyStr`).  The filesystem is a
list of existing paths.  The nondeterministic environment of one request
(the parsed JSON body, the behaviour of `base64.b64decode`, the fresh names
chosen by `tempfile.NamedTemporaryFile`, the outcomes of the temp-file
writes, and the external `DeepFace.verify` call) is a record of oracles;
a Python exception is an `Except.error` carrying `str(e)`.
-/

/-- A Python string, modelled as its list of characters. -/
abbrev PyStr := List Char

/-- JSON-ish values appearing in response bodies.  Numeric results coming
back from the verifier are passed through the handler untouched, so they are
carried opaquely inside `JVal`. -/
inductive JVal where
  | s : PyStr → JVal
  | b : Bool → JVal
  | n : Int → JVal
deriving DecidableEq, Repr

/-- The record returned by a successful `DeepFace.verify` call, restricted to
the four keys the handler reads.  Each field is passed through to the JSON
response unmodified, hence `JVal`. -/
structure VerifierResult where
  verified : JVal
  distance : JVal
  threshold : JVal
  model : JVal
deriving DecidableEq, Repr

/-- The per-request environment: every external effect the handler's code
depends on.  `getJson` models `request.get_json()` together with the
attribute access `data.get(...)` on its result: `Except.error msg` is any
exception raised while obtaining the body dictionary (absent body, malformed
JSON, JSON that is not an object), with `msg = str(e)`.  `b64decode` models
`base64.b64decode`; `temp1`/`temp2` are the fresh names generated by
`tempfile.NamedTemporaryFile` for `f1`/`f2`; `write1`/`write2` are `some msg`
when the corresponding `f.write` raises; `verify` models `DeepFace.verify`
applied to `(img1_path, img2_path, model_name, enforce_detection)`. -/
structure Env where
  getJson : Except PyStr (List (PyStr × PyStr))
  b64decode : PyStr → Except PyStr (List Nat)
  temp1 : PyStr
  temp2 : PyStr
  write1 : Option PyStr
  write2 : Option PyStr
  verify : PyStr → PyStr → PyStr → Bool → Except PyStr VerifierResult

/-- An HTTP response: status code and JSON body (association list). -/
structure Resp where
  status : Nat
  body : List (String × JVal)
deriving DecidableEq, Repr

/-- The observable outcome of one request: the response, the final
filesystem, the temp files created during the request, the resolved
reference for `image2` (path and whether the handler owns/deletes it), and
the arguments of the `DeepFace.verify` call when it was reached. -/
structure RunResult where
  resp : Resp
  fs : List PyStr
  created : List PyStr
  img2Ref : Option (PyStr × Bool)
  call : Option (PyStr × PyStr × PyStr × Bool)
deriving DecidableEq, Repr

/-- `jsonify({'error': str(e), 'verified': False}), 500` — the catch-all
error response of the outer `except` block. -/
def err500 (msg : PyStr) : Resp :=
  ⟨500, [("error", JVal.s msg), ("verified", JVal.b false)]⟩

/-- `data.get(key)` followed by Python truthiness: a missing key behaves
exactly like the empty string in the `if not image1_b64 or not image2_path`
check, so both are collapsed to `[]`. -/
def lookupD (data : List (PyStr × PyStr)) (key : PyStr) : PyStr :=
  (data.lookup key).getD []

/-- Python `s.split(sep)` for a one-character separator: `"".split(',')`
is `['']`, and separators at the ends produce empty fields. -/
def pySplit (sep : Char) : PyStr → List PyStr
  | [] => [[]]
  | c :: cs =>
    if c = sep then [] :: pySplit sep cs
    else
      match pySplit sep cs with
      | [] => [[c]]
      | h :: t => (c :: h) :: t

/-- Line 21 / 29: `s.split(',')[1] if ',' in s else s` — the string handed
to `base64.b64decode`. -/
def extractPayload (s : PyStr) : PyStr :=
  if ',' ∈ s then (pySplit ',' s).getD 1 [] else s

/-- Line 28: `image2_path.startswith('data:') or image2_path.startswith('/9j')`. -/
def isBase64Like (s : PyStr) : Bool :=
  List.isPrefixOf "data:".toList s || List.isPrefixOf "/9j".toList s

/-- `os.unlink p`: remove the path from the filesystem. -/
def fsUnlink (fs : List PyStr) (p : PyStr) : List PyStr :=
  fs.filter (fun q => decide (q ≠ p))

/-- The `finally` block (lines 50–55): delete `img1_path` if it exists, then
delete `img2_path` if it differs from the original `image2_path` string and
exists. -/
def cleanup (img1_path img2_path image2_path : PyStr) (fs : List PyStr) :
    List PyStr :=
  let fs1 := if img1_path ∈ fs then fsUnlink fs img1_path else fs
  if img2_path ≠ image2_path ∧ img2_path ∈ fs1 then fsUnlink fs1 img2_path
  else fs1

/-- The inner `try` (lines 36–55): call `DeepFace.verify` with the fixed
model name and `enforce_detection=False`; on success return 200 with the
four result fields; on failure the exception propagates to the outer
`except` after the `finally` cleanup; either way the cleanup runs. -/
def runVerify (env : Env) (img1_path img2_path image2_path : PyStr)
    (fs : List PyStr) (created : List PyStr) (ref2 : PyStr × Bool) :
    RunResult :=
  match env.verify img1_path img2_path "VGG-Face".toList false with
  | .ok r =>
      ⟨⟨200, [("verified", r.verified), ("distance", r.distance),
              ("threshold", r.threshold), ("model", r.model)]⟩,
       cleanup img1_path img2_path image2_path fs, created,
       some ref2, some (img1_path, img2_path, "VGG-Face".toList, false)⟩
  | .error msg =>
      ⟨err500 msg,
       cleanup img1_path img2_path image2_path fs, created,
       some ref2, some (img1_path, img2_path, "VGG-Face".toList, false)⟩

/-- The `/verify` handler `verify_faces` of `server.py`, line by line.
Note the scope of the `try/finally`: it wraps only the verifier call, so an
exception raised while handling `image2` (lines 28–32) reaches the outer
`except` without any cleanup — the already-written `img1` temp file stays on
disk.  A temp file whose `write` raises also stays on disk
(`NamedTemporaryFile(delete=False)` has already created it). -/
def verify_faces (env : Env) (fs0 : List PyStr) : RunResult :=
  match env.getJson with
  | .error msg => ⟨err500 msg, fs0, [], none, none⟩
  | .ok data =>
    let image1_b64 := lookupD data "image1".toList
    let image2_path := lookupD data "image2".toList
    if image1_b64 = [] ∨ image2_path = [] then
      ⟨⟨400, [("error", JVal.s "Two images are required".toList)]⟩,
       fs0, [], none, none⟩
    else
      match env.b64decode (extractPayload image1_b64) with
      | .error msg => ⟨err500 msg, fs0, [], none, none⟩
      | .ok _img1_data =>
        let fs1 := env.temp1 :: fs0
        match env.write1 with
        | some msg => ⟨err500 msg, fs1, [env.temp1], none, none⟩
        | none =>
          if isBase64Like image2_path then
            match env.b64decode (extractPayload image2_path) with
            | .error msg => ⟨err500 msg, fs1, [env.temp1], none, none⟩
            | .ok _img2_data =>
              let fs2 := env.temp2 :: fs1
              match env.write2 with
              | some msg =>
                  ⟨err500 msg, fs2, [env.temp1, env.temp2], none, none⟩
              | none =>
                  runVerify env env.temp1 env.temp2 image2_path fs2
                    [env.temp1, env.temp2] (env.temp2, true)
          else
            runVerify env env.temp1 image2_path image2_path fs1
              [env.temp1] (image2_path, false)

/-- Spec-worded payload rule for comparison (§4.1 step 1: "the substring
after the first comma" — everything following it): drop up to and including
the first comma. -/
def specPayloadAfterFirstComma (s : PyStr) : PyStr :=
  if ',' ∈ s then (s.dropWhile (fun c => decide (c ≠ ','))).tail else s

theorem pySplit_ne_nil (sep : Char) (s : PyStr) : pySplit sep s ≠ [] := by
  cases s with
  | nil => simp [pySplit]
  | cons c cs =>
    unfold pySplit
    by_cases h : c = sep
    · simp [h]
    · rw [if_neg h]
      cases pySplit sep cs <;> simp

theorem pySplit_getD_zero (sep : Char) (s : PyStr) :
    (pySplit sep s).getD 0 [] = s.takeWhile (fun c => decide (c ≠ sep)) := by
  induction s with
  | nil => simp [pySplit]
  | cons c cs ih =>
    by_cases h : c = sep
    · subst h
      rw [pySplit, if_pos rfl]
      simp
    · rw [pySplit, if_neg h]
      cases hps : pySplit sep cs with
      | nil => exact absurd hps (pySplit_ne_nil sep cs)
      | cons hd tl =>
        rw [hps] at ih
        simp only [List.getD_cons_zero] at ih
        simp [ih, List.takeWhile_cons, h]

theorem pySplit_getD_one_cons (sep c : Char) (cs : PyStr) (h : c ≠ sep) :
    (pySplit sep (c :: cs)).getD 1 [] = (pySplit sep cs).getD 1 [] := by
  rw [pySplit, if_neg h]
  cases hps : pySplit sep cs with
  | nil => exact absurd hps (pySplit_ne_nil sep cs)
  | cons hd tl => simp

theorem pySplit_getD_one (s : PyStr) (h : ',' ∈ s) :
    (pySplit ',' s).getD 1 [] =
      ((s.dropWhile (fun c => decide (c ≠ ','))).tail).takeWhile
        (fun c => decide (c ≠ ',')) := by
  induction s with
  | nil => simp at h
  | cons c cs ih =>
    by_cases hc : c = ','
    · subst hc
      rw [pySplit, if_pos rfl]
      simp only [List.getD_cons_succ]
      rw [pySplit_getD_zero]
      simp
    · have hcs : ',' ∈ cs := by
        rcases List.mem_cons.mp h with h1 | h1
        · exact absurd h1.symm hc
        · exact h1
      rw [pySplit_getD_one_cons ',' c cs hc, ih hcs]
      have : (c :: cs).dropWhile (fun c => decide (c ≠ ',')) =
          cs.dropWhile (fun c => decide (c ≠ ',')) := by
        rw [List.dropWhile_cons_of_pos]
        simp [hc]
      rw [this]

/-- Amended form of the payload rule actually implemented by
`s.split(',')[1]`: when `s` contains a comma, the payload is the substring
after the first comma truncated at the next comma (the second comma-split
field), not everything after the first comma. -/
theorem extractPayload_eq_truncated (s : PyStr) :
    extractPayload s =
      if ',' ∈ s then
        (specPayloadAfterFirstComma s).takeWhile (fun c => decide (c ≠ ','))
      else s := by
  by_cases h : ',' ∈ s
  · rw [if_pos h, extractPayload, if_pos h, specPayloadAfterFirstComma, if_pos h]
    exact pySplit_getD_one s h
  · rw [if_neg h, extractPayload, if_neg h]

theorem takeWhile_of_not_mem (p : PyStr) (hp : ',' ∉ p) :
    p.takeWhile (fun c => decide (c ≠ ',')) = p := by
  induction p with
  | nil => rfl
  | cons c cs ih =>
    have hc : c ≠ ',' := fun h => hp (h ▸ List.mem_cons_self c cs)
    have hcs : ',' ∉ cs := fun h => hp (List.mem_cons_of_mem c h)
    rw [List.takeWhile_cons_of_pos (by simp [hc]), ih hcs]

theorem extractPayload_cons_ne (c : Char) (cs : PyStr) (hc : c ≠ ',')
    (hcs : ',' ∈ cs) : extractPayload (c :: cs) = extractPayload cs := by
  have hmem : ',' ∈ c :: cs := List.mem_cons_of_mem c hcs
  rw [extractPayload, extractPayload, if_pos hmem, if_pos hcs]
  exact pySplit_getD_one_cons ',' c cs hc

theorem extractPayload_strip (pre p : PyStr) (hpre : ∀ c ∈ pre, c ≠ ',')
    (hp : ',' ∉ p) : extractPayload (pre ++ ',' :: p) = p := by
  induction pre with
  | nil =>
    rw [List.nil_append, extractPayload, if_pos (List.mem_cons_self ',' p),
        pySplit, if_pos rfl]
    simp only [List.getD_cons_succ]
    rw [pySplit_getD_zero, takeWhile_of_not_mem p hp]
  | cons c cs ih =>
    have hc : c ≠ ',' := hpre c (List.mem_cons_self c cs)
    have hcs : ∀ x ∈ cs, x ≠ ',' := fun x hx => hpre x (List.mem_cons_of_mem c hx)
    have hmem : ',' ∈ cs ++ ',' :: p :=
      List.mem_append_right cs (List.mem_cons_self ',' p)
    rw [List.cons_append, extractPayload_cons_ne c (cs ++ ',' :: p) hc hmem]
    exact ih hcs

example :
    extractPayload "data:image/jpeg;base64,QQ==".toList = "QQ==".toList := by
  decide

example : extractPayload "a,b,c".toList = "b".toList := by decide

example : isBase64Like "/9jABCD".toList = true := by decide

example : isBase64Like "/home/user/a.jpg".toList = false := by decide

theorem runVerify_fs (env : Env) (a b c : PyStr) (fs cr : List PyStr)
    (r2 : PyStr × Bool) : (runVerify env a b c fs cr r2).fs = cleanup a b c fs := by
  unfold runVerify
  cases env.verify a b "VGG-Face".toList false <;> rfl

theorem runVerify_created (env : Env) (a b c : PyStr) (fs cr : List PyStr)
    (r2 : PyStr × Bool) : (runVerify env a b c fs cr r2).created = cr := by
  unfold runVerify
  cases env.verify a b "VGG-Face".toList false <;> rfl

theorem runVerify_img2Ref (env : Env) (a b c : PyStr) (fs cr : List PyStr)
    (r2 : PyStr × Bool) : (runVerify env a b c fs cr r2).img2Ref = some r2 := by
  unfold runVerify
  cases env.verify a b "VGG-Face".toList false <;> rfl

theorem runVerify_call (env : Env) (a b c : PyStr) (fs cr : List PyStr)
    (r2 : PyStr × Bool) :
    (runVerify env a b c fs cr r2).call =
      some (a, b, "VGG-Face".toList, false) := by
  unfold runVerify
  cases env.verify a b "VGG-Face".toList false <;> rfl

theorem runVerify_resp_ok (env : Env) (a b c : PyStr) (fs cr : List PyStr)
    (r2 : PyStr × Bool) (r : VerifierResult)
    (h : env.verify a b "VGG-Face".toList false = .ok r) :
    (runVerify env a b c fs cr r2).resp =
      ⟨200, [("verified", r.verified), ("distance", r.distance),
             ("threshold", r.threshold), ("model", r.model)]⟩ := by
  unfold runVerify
  rw [h]

theorem runVerify_resp_error (env : Env) (a b c : PyStr) (fs cr : List PyStr)
    (r2 : PyStr × Bool) (msg : PyStr)
    (h : env.verify a b "VGG-Face".toList false = .error msg) :
    (runVerify env a b c fs cr r2).resp = err500 msg := by
  unfold runVerify
  rw [h]

theorem not_mem_fsUnlink_self (fs : List PyStr) (a : PyStr) :
    a ∉ fsUnlink fs a := by
  intro h
  have := (List.mem_filter.mp h).2
  simp at this

theorem mem_of_mem_fsUnlink (fs : List PyStr) (a q : PyStr)
    (h : q ∈ fsUnlink fs a) : q ∈ fs :=
  (List.mem_filter.mp h).1

theorem mem_fsUnlink (fs : List PyStr) (a q : PyStr) (hq : q ∈ fs)
    (hne : q ≠ a) : q ∈ fsUnlink fs a :=
  List.mem_filter.mpr ⟨hq, by simp [hne]⟩

/-- The `img1_path` temp file never survives the `finally` block. -/
theorem not_mem_cleanup_left (a b c : PyStr) (fs : List PyStr) (ha : a ∈ fs) :
    a ∉ cleanup a b c fs := by
  simp only [cleanup]
  rw [if_pos ha]
  intro h
  split at h
  · exact not_mem_fsUnlink_self fs a (mem_of_mem_fsUnlink _ b a h)
  · exact not_mem_fsUnlink_self fs a h

/-- A temp-file `img2_path` distinct from the original `image2_path` string
never survives the `finally` block. -/
theorem not_mem_cleanup_right (a b c : PyStr) (fs : List PyStr) (hbc : b ≠ c) :
    b ∉ cleanup a b c fs := by
  simp only [cleanup]
  intro h
  by_cases h1 : b ∈ (if a ∈ fs then fsUnlink fs a else fs)
  · rw [if_pos ⟨hbc, h1⟩] at h
    exact not_mem_fsUnlink_self _ b h
  · rw [if_neg (fun hh => h1 hh.2)] at h
    exact h1 h

/-- A path equal to the original `image2_path` string survives the `finally`
block as long as it is not the `img1_path` temp name. -/
theorem mem_cleanup_same (a p : PyStr) (fs : List PyStr) (hpa : p ≠ a)
    (hp : p ∈ fs) : p ∈ cleanup a p p fs := by
  simp only [cleanup]
  have h1 : p ∈ (if a ∈ fs then fsUnlink fs a else fs) := by
    split
    · exact mem_fsUnlink fs a p hp hpa
    · exact hp
  rw [if_neg]
  · exact h1
  · simp

/-- Request with `image2` missing entirely from the JSON body. -/
def envMissing : Env where
  getJson := .ok [("image1".toList, "QQ==".toList)]
  b64decode := fun _ => .ok [65]
  temp1 := "/tmp/t1.jpg".toList
  temp2 := "/tmp/t2.jpg".toList
  write1 := none
  write2 := none
  verify := fun _ _ _ _ => .error "unreachable".toList

/-- Request whose body could not be parsed into a JSON object. -/
def envBadBody : Env where
  getJson := .error "Failed to decode JSON object".toList
  b64decode := fun _ => .ok [65]
  temp1 := "/tmp/t1.jpg".toList
  temp2 := "/tmp/t2.jpg".toList
  write1 := none
  write2 := none
  verify := fun _ _ _ _ => .error "unreachable".toList

/-- Request that reaches the verifier with `image2` given as a filesystem
path; the verifier itself raises. -/
def envVerifierFail : Env where
  getJson := .ok [("image1".toList, "QQ==".toList),
                  ("image2".toList, "/gov/photo.jpg".toList)]
  b64decode := fun _ => .ok [65]
  temp1 := "/tmp/t1.jpg".toList
  temp2 := "/tmp/t2.jpg".toList
  write1 := none
  write2 := none
  verify := fun _ _ _ _ => .error "unreadable image".toList

/-- C2: for every POST /verify request in which `image1` or `image2` is
missing or empty (a missing key and an empty string are indistinguishable to
the Python truthiness test on line 17), the handler returns HTTP 400 with
body `{error: "Two images are required"}`, the filesystem is untouched, and
no temp file is created. -/
theorem missing_field_400 (env : Env) (fs0 : List PyStr)
    (data : List (PyStr × PyStr)) (hj : env.getJson = .ok data)
    (hmiss : lookupD data "image1".toList = [] ∨
      lookupD data "image2".toList = []) :
    verify_faces env fs0 =
      ⟨⟨400, [("error", JVal.s "Two images are required".toList)]⟩,
       fs0, [], none, none⟩ := by
  simp only [verify_faces, hj]
  rw [if_pos hmiss]

/-- C2 witness: a concrete request with `image2` missing gets the 400
response and leaves the (empty) filesystem unchanged. -/
theorem missing_field_400_witness :
    verify_faces envMissing [] =
      ⟨⟨400, [("error", JVal.s "Two images are required".toList)]⟩,
       [], [], none, none⟩ :=
  missing_field_400 envMissing [] _ rfl (by decide)

/-- C9: a request whose body is absent or cannot be parsed as a JSON object
raises inside the broad `try`, so the catch-all branch answers HTTP 500 with
`{error: str(e), verified: false}` — not HTTP 400. -/
theorem bad_body_500 (env : Env) (fs0 : List PyStr) (msg : PyStr)
    (hj : env.getJson = .error msg) :
    verify_faces env fs0 = ⟨err500 msg, fs0, [], none, none⟩ ∧
    (verify_faces env fs0).resp.status = 500 := by
  simp [verify_faces, hj, err500]

/-- C9 witness: a concrete unparsable body yields the 500 catch-all
response. -/
theorem bad_body_500_witness :
    verify_faces envBadBody [] =
      ⟨err500 "Failed to decode JSON object".toList, [], [], none, none⟩ ∧
    (verify_faces envBadBody []).resp.status = 500 :=
  bad_body_500 envBadBody [] _ rfl

/-- C6: whenever `image2` is classified as a filesystem path (its string
matches neither base64 prefix), the handler never deletes that path: a file
pre-existing there still exists after the request, whatever the outcome —
provided the fresh temp name does not collide with an existing path. -/
theorem non_owned_path_preserved (env : Env) (fs0 : List PyStr)
    (data : List (PyStr × PyStr)) (p : PyStr)
    (hj : env.getJson = .ok data)
    (hp : lookupD data "image2".toList = p)
    (hclass : isBase64Like p = false)
    (hpre : p ∈ fs0)
    (hfresh : env.temp1 ∉ fs0) :
    p ∈ (verify_faces env fs0).fs := by
  have hne : p ≠ env.temp1 := fun h => hfresh (h ▸ hpre)
  simp only [verify_faces, hj, hp]
  split
  · exact hpre
  · cases hdec : env.b64decode (extractPayload (lookupD data "image1".toList)) with
    | error m => exact hpre
    | ok d =>
      cases hw : env.write1 with
      | some m => exact List.mem_cons_of_mem _ hpre
      | none =>
        rw [if_neg (by simp [hclass])]
        rw [runVerify_fs]
        exact mem_cleanup_same env.temp1 p _ hne (List.mem_cons_of_mem _ hpre)

/-- C6 witness: the concrete pre-existing path `/gov/photo.jpg` given as
`image2` survives a request whose verifier call fails. -/
theorem non_owned_path_preserved_witness :
    "/gov/photo.jpg".toList ∈
      (verify_faces envVerifierFail ["/gov/photo.jpg".toList]).fs :=
  non_owned_path_preserved envVerifierFail ["/gov/photo.jpg".toList] _
    "/gov/photo.jpg".toList rfl (by decide) (by decide) (by decide) (by decide)

/-- Request in which `image1` decodes and is written to a temp file, but
`image2` (a data URL) fails base64 decoding. -/
def envLeak : Env where
  getJson := .ok [("image1".toList, "QQ==".toList),
                  ("image2".toList, "data:image/jpeg;base64,!!".toList)]
  b64decode := fun s =>
    if s = "QQ==".toList then .ok [65]
    else .error "Invalid base64-encoded string".toList
  temp1 := "/tmp/leak1.jpg".toList
  temp2 := "/tmp/leak2.jpg".toList
  write1 := none
  write2 := none
  verify := fun _ _ _ _ => .error "unreachable".toList

/-- C1 counterexample: when `image2` takes the base64 route and its decode
raises, the exception jumps to the outer `except` without passing through
the `finally` block (which only wraps the verifier call), so the already
written `image1` temp file is still on disk when the 500 response is
emitted. -/
theorem temp_cleanup_counterexample :
    "/tmp/leak1.jpg".toList ∈ (verify_faces envLeak []).created ∧
    "/tmp/leak1.jpg".toList ∈ (verify_faces envLeak []).fs ∧
    (verify_faces envLeak []).resp.status = 500 := by
  decide

/-- C1 amended: temp-file cleanup is guaranteed only once the verifier call
is reached, i.e. when decoding and temp-writing of `image1` (and of `image2`
on its base64 route) all succeed; then every temp file created during the
request is gone from the final filesystem whether the verifier succeeds or
raises, provided the fresh `image2` temp name differs from the `image2`
string itself.  (A failure while handling `image2` leaks the `image1` temp
file, as the counterexample shows.) -/
theorem temp_cleanup_when_verifier_reached (env : Env) (fs0 : List PyStr)
    (data : List (PyStr × PyStr))
    (hj : env.getJson = .ok data)
    (h1 : lookupD data "image1".toList ≠ [])
    (h2 : lookupD data "image2".toList ≠ [])
    (d1 : List Nat)
    (hd1 : env.b64decode (extractPayload (lookupD data "image1".toList)) = .ok d1)
    (hw1 : env.write1 = none)
    (hb : isBase64Like (lookupD data "image2".toList) = true →
      (∃ d2, env.b64decode
          (extractPayload (lookupD data "image2".toList)) = .ok d2) ∧
      env.write2 = none ∧ env.temp2 ≠ lookupD data "image2".toList) :
    ∀ q ∈ (verify_faces env fs0).created, q ∉ (verify_faces env fs0).fs := by
  simp only [verify_faces, hj]
  rw [if_neg (by rintro (h | h) <;> [exact h1 h; exact h2 h]), hd1, hw1]
  by_cases hcl : isBase64Like (lookupD data "image2".toList) = true
  · obtain ⟨⟨d2, hd2⟩, hw2, hne2⟩ := hb hcl
    rw [if_pos hcl, hd2, hw2]
    intro q hq
    rw [runVerify_created] at hq
    rw [runVerify_fs]
    rcases List.mem_cons.mp hq with h | h
    · subst h
      exact not_mem_cleanup_left _ _ _ _ (List.mem_cons_of_mem _ (List.mem_cons_self _ _))
    · rw [List.mem_singleton.mp h]
      exact not_mem_cleanup_right _ _ _ _ hne2
  · rw [if_neg hcl]
    intro q hq
    rw [runVerify_created] at hq
    rw [runVerify_fs]
    rw [List.mem_singleton.mp hq]
    exact not_mem_cleanup_left _ _ _ _ (List.mem_cons_self _ _)

/-- C1 amended witness: in a concrete run that reaches the verifier (which
then fails), the created temp file is absent from the final filesystem. -/
theorem temp_cleanup_when_verifier_reached_witness :
    "/tmp/t1.jpg".toList ∉
      (verify_faces envVerifierFail ["/gov/photo.jpg".toList]).fs :=
  temp_cleanup_when_verifier_reached envVerifierFail ["/gov/photo.jpg".toList]
    _ rfl (by decide) (by decide) [65] rfl rfl
    (fun h => absurd h (by decide)) "/tmp/t1.jpg".toList (by decide)

/-- Request whose `image1` contains two commas; the decoder echoes the exact
string it received as its error message, so the 500 response reveals the
payload the handler passed to `base64.b64decode`. -/
def envC4 : Env where
  getJson := .ok [("image1".toList, "data:x,QUFB,QkJC".toList),
                  ("image2".toList, "/gov/photo.jpg".toList)]
  b64decode := fun s => .error s
  temp1 := "/tmp/t1.jpg".toList
  temp2 := "/tmp/t2.jpg".toList
  write1 := none
  write2 := none
  verify := fun _ _ _ _ => .error "unreachable".toList

/-- C4 counterexample: for `image1 = "data:x,QUFB,QkJC"` the string handed
to the decoder is `"QUFB"` — the field between the first and second commas
produced by `split(',')[1]` — not `"QUFB,QkJC"`, the substring after the
first comma that the claim demands. -/
theorem split_payload_counterexample :
    (verify_faces envC4 []).resp = err500 "QUFB".toList ∧
    specPayloadAfterFirstComma "data:x,QUFB,QkJC".toList =
      "QUFB,QkJC".toList ∧
    "QUFB".toList ≠ "QUFB,QkJC".toList := by
  decide

/-- C8: prefixing a comma-free base64 payload with the data-URL header
changes nothing about the bytes the decoder returns: the handler strips the
header before decoding, so both submissions decode identically under every
decoder. -/
theorem dataUrl_transparent (env : Env) (p : PyStr) (hp : ',' ∉ p) :
    env.b64decode (extractPayload ("data:image/jpeg;base64,".toList ++ p)) =
      env.b64decode (extractPayload p) := by
  have hsplit : "data:image/jpeg;base64,".toList =
      "data:image/jpeg;base64".toList ++ [','] := by decide
  have h1 : extractPayload ("data:image/jpeg;base64,".toList ++ p) = p := by
    rw [hsplit, List.append_assoc, List.singleton_append]
    exact extractPayload_strip _ p (by decide) hp
  have h2 : extractPayload p = p := by
    rw [extractPayload, if_neg hp]
  rw [h1, h2]

/-- C8 witness: concrete payload `QQ==` with and without the data-URL
header reaches the decoder as the same string. -/
theorem dataUrl_transparent_witness :
    envVerifierFail.b64decode
        (extractPayload ("data:image/jpeg;base64,".toList ++ "QQ==".toList)) =
      envVerifierFail.b64decode (extractPayload "QQ==".toList) :=
  dataUrl_transparent envVerifierFail "QQ==".toList (by decide)

/-- Request in which both images arrive base64-encoded (`image2` carries the
JPEG magic prefix `/9j`) and everything succeeds. -/
def envTwoB64 : Env where
  getJson := .ok [("image1".toList, "QQ==".toList),
                  ("image2".toList, "/9j/QUFB".toList)]
  b64decode := fun _ => .ok [65]
  temp1 := "/tmp/t1.jpg".toList
  temp2 := "/tmp/t2.jpg".toList
  write1 := none
  write2 := none
  verify := fun _ _ _ _ =>
    .ok ⟨JVal.b true, JVal.n 0, JVal.n 1, JVal.s "VGG-Face".toList⟩

/-- C3: once `image1` has been written, `image2` is classified purely by its
two literal prefixes: a `data:`/`/9j` string is routed through the
comma-stripping decode-and-write procedure and its temp file is owned
(second entry of `created`), whatever else the string looks like; any other
string is used as-is as a filesystem path, not owned, and no second temp
file is created. -/
theorem image2_classification (env : Env) (fs0 : List PyStr)
    (data : List (PyStr × PyStr))
    (hj : env.getJson = .ok data)
    (h1 : lookupD data "image1".toList ≠ [])
    (h2 : lookupD data "image2".toList ≠ [])
    (d1 : List Nat)
    (hd1 : env.b64decode (extractPayload (lookupD data "image1".toList)) = .ok d1)
    (hw1 : env.write1 = none) :
    (∀ d2, isBase64Like (lookupD data "image2".toList) = true →
      env.b64decode (extractPayload (lookupD data "image2".toList)) = .ok d2 →
      env.write2 = none →
      (verify_faces env fs0).img2Ref = some (env.temp2, true) ∧
      (verify_faces env fs0).created = [env.temp1, env.temp2]) ∧
    (isBase64Like (lookupD data "image2".toList) = false →
      (verify_faces env fs0).img2Ref =
        some (lookupD data "image2".toList, false) ∧
      (verify_faces env fs0).created = [env.temp1]) := by
  constructor
  · intro d2 hcl hd2 hw2
    simp only [verify_faces, hj]
    rw [if_neg (by rintro (h | h) <;> [exact h1 h; exact h2 h]), hd1, hw1,
        if_pos hcl, hd2, hw2]
    exact ⟨runVerify_img2Ref _ _ _ _ _ _ _, runVerify_created _ _ _ _ _ _ _⟩
  · intro hcl
    have hcl2 : isBase64Like (lookupD data ['i', 'm', 'a', 'g', 'e', '2']) = false := hcl
    simp only [verify_faces, hj]
    rw [if_neg (by rintro (h | h) <;> [exact h1 h; exact h2 h]), hd1, hw1,
        if_neg (by simp [hcl2])]
    exact ⟨runVerify_img2Ref _ _ _ _ _ _ _, runVerify_created _ _ _ _ _ _ _⟩

/-- C3 witness: a concrete `image2` starting with `/9j` is decoded to a
second owned temp file. -/
theorem image2_classification_witness :
    (verify_faces envTwoB64 []).img2Ref = some (envTwoB64.temp2, true) ∧
    (verify_faces envTwoB64 []).created =
      [envTwoB64.temp1, envTwoB64.temp2] :=
  (image2_classification envTwoB64 [] _ rfl (by decide) (by decide) [65]
    rfl rfl).1 [65] (by decide) rfl rfl

/-- C7: every request that reaches the verifier call invokes it with the two
resolved local paths, the fixed model identifier `VGG-Face`, and
face-detection enforcement disabled; on verifier success the handler answers
HTTP 200 whose body is exactly the four fields of the verifier result,
unmodified. -/
theorem verifier_call_contract (env : Env) (fs0 : List PyStr)
    (data : List (PyStr × PyStr))
    (hj : env.getJson = .ok data)
    (h1 : lookupD data "image1".toList ≠ [])
    (h2 : lookupD data "image2".toList ≠ [])
    (d1 : List Nat)
    (hd1 : env.b64decode (extractPayload (lookupD data "image1".toList)) = .ok d1)
    (hw1 : env.write1 = none)
    (hb : isBase64Like (lookupD data "image2".toList) = true →
      (∃ d2, env.b64decode
          (extractPayload (lookupD data "image2".toList)) = .ok d2) ∧
      env.write2 = none) :
    ∃ p2,
      ((isBase64Like (lookupD data "image2".toList) = true ∧ p2 = env.temp2) ∨
       (isBase64Like (lookupD data "image2".toList) = false ∧
        p2 = lookupD data "image2".toList)) ∧
      (verify_faces env fs0).call =
        some (env.temp1, p2, "VGG-Face".toList, false) ∧
      ∀ r, env.verify env.temp1 p2 "VGG-Face".toList false = .ok r →
        (verify_faces env fs0).resp =
          ⟨200, [("verified", r.verified), ("distance", r.distance),
                 ("threshold", r.threshold), ("model", r.model)]⟩ := by
  cases hcl : isBase64Like (lookupD data "image2".toList) with
  | true =>
    obtain ⟨⟨d2, hd2⟩, hw2⟩ := hb hcl
    refine ⟨env.temp2, Or.inl ⟨rfl, rfl⟩, ?_, ?_⟩
    · simp only [verify_faces, hj]
      rw [if_neg (by rintro (h | h) <;> [exact h1 h; exact h2 h]), hd1, hw1,
          if_pos hcl, hd2, hw2]
      exact runVerify_call _ _ _ _ _ _ _
    · intro r hr
      simp only [verify_faces, hj]
      rw [if_neg (by rintro (h | h) <;> [exact h1 h; exact h2 h]), hd1, hw1,
          if_pos hcl, hd2, hw2]
      exact runVerify_resp_ok _ _ _ _ _ _ _ r hr
  | false =>
    have hcl2 : isBase64Like (lookupD data ['i', 'm', 'a', 'g', 'e', '2']) = false := hcl
    refine ⟨lookupD data "image2".toList, Or.inr ⟨rfl, rfl⟩, ?_, ?_⟩
    · simp only [verify_faces, hj]
      rw [if_neg (by rintro (h | h) <;> [exact h1 h; exact h2 h]), hd1, hw1,
          if_neg (by simp [hcl2])]
      exact runVerify_call _ _ _ _ _ _ _
    · intro r hr
      simp only [verify_faces, hj]
      rw [if_neg (by rintro (h | h) <;> [exact h1 h; exact h2 h]), hd1, hw1,
          if_neg (by simp [hcl2])]
      exact runVerify_resp_ok _ _ _ _ _ _ _ r hr

/-- C7 witness: a concrete all-base64 request reaching a succeeding verifier
returns 200 with the verifier result fields verbatim. -/
theorem verifier_call_contract_witness :
    (verify_faces envTwoB64 []).call =
      some (envTwoB64.temp1, envTwoB64.temp2, "VGG-Face".toList, false) ∧
    (verify_faces envTwoB64 []).resp =
      ⟨200, [("verified", JVal.b true), ("distance", JVal.n 0),
             ("threshold", JVal.n 1), ("model", JVal.s "VGG-Face".toList)]⟩ := by
  obtain ⟨p2, hp2, hcall, hok⟩ :=
    verifier_call_contract envTwoB64 [] _ rfl (by decide) (by decide) [65]
      rfl rfl (fun _ => ⟨⟨[65], rfl⟩, rfl⟩)
  rcases hp2 with ⟨_, hp2⟩ | ⟨hfalse, _⟩
  · subst hp2
    exact ⟨hcall, hok _ rfl⟩
  · exact absurd hfalse (by decide)

/-- The ways the per-request workflow can raise after field validation, in
control-flow order, each carrying the message `str(e)` of the raised
exception: `image1` decode failure, `image1` temp-write failure, `image2`
decode failure (base64 route), `image2` temp-write failure (base64 route),
verifier failure on the base64 route, verifier failure on the path route. -/
def OperationalFailure (env : Env) (i1 i2 msg : PyStr) : Prop :=
  env.b64decode (extractPayload i1) = .error msg
  ∨ ((∃ d1, env.b64decode (extractPayload i1) = .ok d1) ∧
      env.write1 = some msg)
  ∨ ((∃ d1, env.b64decode (extractPayload i1) = .ok d1) ∧
      env.write1 = none ∧ isBase64Like i2 = true ∧
      env.b64decode (extractPayload i2) = .error msg)
  ∨ ((∃ d1, env.b64decode (extractPayload i1) = .ok d1) ∧
      env.write1 = none ∧ isBase64Like i2 = true ∧
      (∃ d2, env.b64decode (extractPayload i2) = .ok d2) ∧
      env.write2 = some msg)
  ∨ ((∃ d1, env.b64decode (extractPayload i1) = .ok d1) ∧
      env.write1 = none ∧ isBase64Like i2 = true ∧
      (∃ d2, env.b64decode (extractPayload i2) = .ok d2) ∧
      env.write2 = none ∧
      env.verify env.temp1 env.temp2 "VGG-Face".toList false = .error msg)
  ∨ ((∃ d1, env.b64decode (extractPayload i1) = .ok d1) ∧
      env.write1 = none ∧ isBase64Like i2 = false ∧
      env.verify env.temp1 i2 "VGG-Face".toList false = .error msg)

/-- C5: every request that passes field validation and then fails at any
subsequent step (base64 decoding, temp-file writing, or the verifier call)
is answered with HTTP 500 carrying the raw error message under `error` and
`verified: false`. -/
theorem operational_failure_500 (env : Env) (fs0 : List PyStr)
    (data : List (PyStr × PyStr)) (msg : PyStr)
    (hj : env.getJson = .ok data)
    (h1 : lookupD data "image1".toList ≠ [])
    (h2 : lookupD data "image2".toList ≠ [])
    (hof : OperationalFailure env (lookupD data "image1".toList)
      (lookupD data "image2".toList) msg) :
    (verify_faces env fs0).resp =
      ⟨500, [("error", JVal.s msg), ("verified", JVal.b false)]⟩ := by
  have hvalid : ¬(lookupD data "image1".toList = [] ∨
      lookupD data "image2".toList = []) := by
    rintro (h | h) <;> [exact h1 h; exact h2 h]
  rcases hof with hd1 | ⟨⟨d1, hd1⟩, hw1⟩ | ⟨⟨d1, hd1⟩, hw1, hcl, hd2⟩ |
    ⟨⟨d1, hd1⟩, hw1, hcl, ⟨d2, hd2⟩, hw2⟩ |
    ⟨⟨d1, hd1⟩, hw1, hcl, ⟨d2, hd2⟩, hw2, hv⟩ | ⟨⟨d1, hd1⟩, hw1, hcl, hv⟩
  · simp only [verify_faces, hj]
    rw [if_neg hvalid, hd1]
    rfl
  · simp only [verify_faces, hj]
    rw [if_neg hvalid, hd1, hw1]
    rfl
  · simp only [verify_faces, hj]
    rw [if_neg hvalid, hd1, hw1, if_pos hcl, hd2]
    rfl
  · simp only [verify_faces, hj]
    rw [if_neg hvalid, hd1, hw1, if_pos hcl, hd2, hw2]
    rfl
  · simp only [verify_faces, hj]
    rw [if_neg hvalid, hd1, hw1, if_pos hcl, hd2, hw2]
    exact runVerify_resp_error _ _ _ _ _ _ _ msg hv
  · have hcl2 : isBase64Like (lookupD data ['i', 'm', 'a', 'g', 'e', '2']) = false := hcl
    simp only [verify_faces, hj]
    rw [if_neg hvalid, hd1, hw1, if_neg (by simp [hcl2])]
    exact runVerify_resp_error _ _ _ _ _ _ _ msg hv

/-- C5 witness: a concrete validated request whose verifier raises is
answered 500 with that raw message and `verified: false`. -/
theorem operational_failure_500_witness :
    (verify_faces envVerifierFail ["/gov/photo.jpg".toList]).resp =
      ⟨500, [("error", JVal.s "unreadable image".toList),
             ("verified", JVal.b false)]⟩ :=
  operational_failure_500 envVerifierFail ["/gov/photo.jpg".toList] _
    "unreadable image".toList rfl (by decide) (by decide)
    (Or.inr (Or.inr (Or.inr (Or.inr (Or.inr
      ⟨⟨[65], rfl⟩, rfl, by decide, rfl⟩)))))

/-- Every error message the environment can produce is non-empty (true of
`str(e)` for the exception types the handler can see: `binascii.Error`,
`OSError`, the HTTP framework's parse errors, and verifier errors). -/
def NonEmptyMsgs (env : Env) : Prop :=
  (∀ msg, env.getJson = .error msg → msg ≠ []) ∧
  (∀ s msg, env.b64decode s = .error msg → msg ≠ []) ∧
  (∀ msg, env.write1 = some msg → msg ≠ []) ∧
  (∀ msg, env.write2 = some msg → msg ≠ []) ∧
  (∀ a b m e msg, env.verify a b m e = .error msg → msg ≠ [])

/-- C10: the handler's response status is always one of 200, 400, 500, and
every non-200 response carries a non-empty string under the body key
`error` (given that the environment's raw exception messages are
non-empty). -/
theorem response_shape (env : Env) (fs0 : List PyStr)
    (hne : NonEmptyMsgs env) :
    ((verify_faces env fs0).resp.status = 200 ∨
     (verify_faces env fs0).resp.status = 400 ∨
     (verify_faces env fs0).resp.status = 500) ∧
    ((verify_faces env fs0).resp.status ≠ 200 →
      ∃ msg, (verify_faces env fs0).resp.body.lookup "error" =
          some (JVal.s msg) ∧ msg ≠ []) := by
  obtain ⟨hJ, hD, hW1, hW2, hV⟩ := hne
  cases hgj : env.getJson with
  | error m =>
    simp only [verify_faces, hgj]
    exact ⟨Or.inr (Or.inr rfl), fun _ => ⟨m, rfl, hJ m hgj⟩⟩
  | ok data =>
    by_cases hmiss : lookupD data "image1".toList = [] ∨
        lookupD data "image2".toList = []
    · simp only [verify_faces, hgj]
      rw [if_pos hmiss]
      exact ⟨Or.inr (Or.inl rfl),
        fun _ => ⟨"Two images are required".toList, rfl, by decide⟩⟩
    · cases hd1 : env.b64decode (extractPayload (lookupD data "image1".toList)) with
      | error m =>
        simp only [verify_faces, hgj]
        rw [if_neg hmiss, hd1]
        exact ⟨Or.inr (Or.inr rfl), fun _ => ⟨m, rfl, hD _ m hd1⟩⟩
      | ok d1 =>
        cases hw1 : env.write1 with
        | some m =>
          simp only [verify_faces, hgj]
          rw [if_neg hmiss, hd1, hw1]
          exact ⟨Or.inr (Or.inr rfl), fun _ => ⟨m, rfl, hW1 m hw1⟩⟩
        | none =>
          cases hcl : isBase64Like (lookupD data "image2".toList) with
          | true =>
            cases hd2 : env.b64decode (extractPayload (lookupD data "image2".toList)) with
            | error m =>
              simp only [verify_faces, hgj]
              rw [if_neg hmiss, hd1, hw1, if_pos hcl, hd2]
              exact ⟨Or.inr (Or.inr rfl), fun _ => ⟨m, rfl, hD _ m hd2⟩⟩
            | ok d2 =>
              cases hw2 : env.write2 with
              | some m =>
                simp only [verify_faces, hgj]
                rw [if_neg hmiss, hd1, hw1, if_pos hcl, hd2, hw2]
                exact ⟨Or.inr (Or.inr rfl), fun _ => ⟨m, rfl, hW2 m hw2⟩⟩
              | none =>
                cases hv : env.verify env.temp1 env.temp2 "VGG-Face".toList false with
                | ok r =>
                  simp only [verify_faces, hgj]
                  rw [if_neg hmiss, hd1, hw1, if_pos hcl, hd2, hw2,
                      runVerify_resp_ok _ _ _ _ _ _ _ r hv]
                  exact ⟨Or.inl rfl, fun h => absurd rfl h⟩
                | error m =>
                  simp only [verify_faces, hgj]
                  rw [if_neg hmiss, hd1, hw1, if_pos hcl, hd2, hw2,
                      runVerify_resp_error _ _ _ _ _ _ _ m hv]
                  exact ⟨Or.inr (Or.inr rfl),
                    fun _ => ⟨m, rfl, hV _ _ _ _ m hv⟩⟩
          | false =>
            have hcl2 : isBase64Like (lookupD data ['i', 'm', 'a', 'g', 'e', '2']) = false := hcl
            cases hv : env.verify env.temp1 (lookupD data "image2".toList)
                "VGG-Face".toList false with
            | ok r =>
              simp only [verify_faces, hgj]
              rw [if_neg hmiss, hd1, hw1, if_neg (by simp [hcl2]),
                  runVerify_resp_ok _ _ _ _ _ _ _ r hv]
              exact ⟨Or.inl rfl, fun h => absurd rfl h⟩
            | error m =>
              simp only [verify_faces, hgj]
              rw [if_neg hmiss, hd1, hw1, if_neg (by simp [hcl2]),
                  runVerify_resp_error _ _ _ _ _ _ _ m hv]
              exact ⟨Or.inr (Or.inr rfl),
                fun _ => ⟨m, rfl, hV _ _ _ _ m hv⟩⟩

/-- C10 witness: the concrete failing-verifier run has status 500 and a
non-empty error string in its body. -/
theorem response_shape_witness :
    ((verify_faces envVerifierFail []).resp.status = 200 ∨
     (verify_faces envVerifierFail []).resp.status = 400 ∨
     (verify_faces envVerifierFail []).resp.status = 500) ∧
    ((verify_faces envVerifierFail []).resp.status ≠ 200 →
      ∃ msg, (verify_faces envVerifierFail []).resp.body.lookup "error" =
          some (JVal.s msg) ∧ msg ≠ []) :=
  response_shape envVerifierFail []
    ⟨fun msg h => by simp [envVerifierFail] at h,
     fun s msg h => by simp [envVerifierFail] at h,
     fun msg h => by simp [envVerifierFail] at h,
     fun msg h => by simp [envVerifierFail] at h,
     fun a b m e msg h => by
      simp only [envVerifierFail] at h
      cases h
      decide⟩
